import Mathlib

/-!
Verification of the aspeak speech-synthesis client.

This file gives a shallow embedding of the parts of the repository that the
verified properties are about:

* the receive loop and error handling of
  `WebsocketSynthesizer::synthesize_ssml` (src/synthesizer/websocket.rs),
* the receive loop of `Synthesizer::synthesize_ssml` (src/synthesizer.rs),
* the outbound message format strings (`speech.config`, `synthesis.context`,
  `ssml`) from both files,
* the request-header assembly of `SynthesizerConfig::generate_client_request`
  (src/synthesizer.rs),
* `AudioFormat::from_container_and_quality` (src/types.rs).

Bytes are embedded as `Nat` (no byte arithmetic is performed), byte buffers
as `List Nat`, and fallible operations as `Except`/`Option` values.  The
inbound websocket stream is embedded as a list of items, each of which is
either a successfully parsed protocol message, a transport-level read error
(the `?` on `self.stream.next().await.transpose()`), or a message-codec
parse error (the `?` on `WebSocketMessage::try_from`).
-/

/-- Modelled from the spec: the close frame optionally carried by a `Close`
message (the message codec module `msg.rs` is not part of the available
sources).  `code` is the numeric websocket close code, stringified with its
decimal representation by `to_string`; `reason` is free text. -/
structure CloseFrame where
  code : Nat
  reason : String
deriving Repr, DecidableEq

/-- Modelled from the spec: the inbound protocol-message union (`msg.rs` is
not part of the available sources; the constructors are those matched
exhaustively by the receive loops and listed in the spec data model):
`TurnStart`, `Response{body}`, `Audio{data}`, `AudioMetadata{body}`,
`TurnEnd`, `Close{optional frame}`, `Unrecognized`. -/
inductive WebSocketMessage where
  | turnStart
  | response (body : String)
  | audio (data : List Nat)
  | audioMetadata (body : String)
  | turnEnd
  | close (frame : Option CloseFrame)
  | unrecognized
deriving Repr, DecidableEq

/-- One item delivered to the receive loop per iteration: either the stream
yields a raw frame that parses into a `WebSocketMessage`, or
`self.stream.next().await.transpose()?` propagates a transport read error,
or `WebSocketMessage::try_from(&raw_msg)?` propagates a codec parse error. -/
inductive InboundItem where
  | transportError
  | parseError
  | msg (m : WebSocketMessage)
deriving Repr, DecidableEq

/-- `WebsocketSynthesizerErrorKind` from src/synthesizer/websocket.rs
(lines 145-161).  The error struct also carries an `anyhow` source chain,
which is diagnostic only and not embedded. -/
inductive WebsocketSynthesizerErrorKind where
  | connect
  | websocketConnectionClosed (code : String) (reason : String)
  | websocket
  | invalidRequest
  | invalidMessage
  | ssml
deriving Repr, DecidableEq

/-- The error built by the `WebSocketMessage::Close(frame)` arm of
`WebsocketSynthesizer::synthesize_ssml` (src/synthesizer/websocket.rs lines
60-75): `frame.map_or_else` with the `"Unknown"` / default-reason fallback,
through `WebsocketSynthesizerError::connection_closed`. -/
def closeFrameError (frame : Option CloseFrame) : WebsocketSynthesizerErrorKind :=
  match frame with
  | none =>
      .websocketConnectionClosed ("Unknown")
        ("The server closed the connection without a reason")
  | some fr => .websocketConnectionClosed (toString fr.code) fr.reason

/-- `WebsocketSynthesizer` (src/synthesizer/websocket.rs lines 18-22),
restricted to the field the receive loop mutates.  `audio_format` and the
stream handle only feed the outbound side, embedded separately below. -/
structure WebsocketSynthesizer where
  audio_metadata : Option (List String)
deriving Repr, DecidableEq

/-- The receive loop of `WebsocketSynthesizer::synthesize_ssml`
(src/synthesizer/websocket.rs lines 47-78): iterate over inbound items with
accumulators `buffer` and `audio_metadata`; `TurnStart`/`Response` continue;
`Audio` extends the buffer; `AudioMetadata` pushes its body; `TurnEnd`
breaks (returning the accumulators); `Close` returns the connection-closed
error; the catch-all arm (`Unrecognized`) logs and continues; a transport
or parse error propagates out via `?`.  Stream exhaustion ends the
`while let` normally. -/
def WebsocketSynthesizer.runLoop :
    List InboundItem → List Nat → List String →
      Except WebsocketSynthesizerErrorKind (List Nat × List String)
  | [], buffer, meta => .ok (buffer, meta)
  | .transportError :: _, _, _ => .error .websocket
  | .parseError :: _, _, _ => .error .invalidMessage
  | .msg .turnStart :: rest, buffer, meta =>
      WebsocketSynthesizer.runLoop rest buffer meta
  | .msg (.response _) :: rest, buffer, meta =>
      WebsocketSynthesizer.runLoop rest buffer meta
  | .msg (.audio d) :: rest, buffer, meta =>
      WebsocketSynthesizer.runLoop rest (buffer ++ d) meta
  | .msg (.audioMetadata b) :: rest, buffer, meta =>
      WebsocketSynthesizer.runLoop rest buffer (meta ++ [b])
  | .msg .turnEnd :: _, buffer, meta => .ok (buffer, meta)
  | .msg (.close f) :: _, _, _ => .error (closeFrameError f)
  | .msg .unrecognized :: rest, buffer, meta =>
      WebsocketSynthesizer.runLoop rest buffer meta

/-- `WebsocketSynthesizer::synthesize_ssml` (src/synthesizer/websocket.rs
lines 26-82) as a state transformer.  `sendContextOk` / `sendSsmlOk` are the
outcomes of the two outbound `self.stream.send(..).await?` calls (a failed
send is a `tungstenite::Error`, mapped to the `Websocket` kind and returned
before the loop).  On normal loop termination the collected metadata
overwrites `self.audio_metadata` and the buffer is returned; every error
path returns before that assignment. -/
def WebsocketSynthesizer.synthesize_ssml (s : WebsocketSynthesizer)
    (sendContextOk sendSsmlOk : Bool) (items : List InboundItem) :
    WebsocketSynthesizer × Except WebsocketSynthesizerErrorKind (List Nat) :=
  if !sendContextOk then (s, .error .websocket)
  else if !sendSsmlOk then (s, .error .websocket)
  else
    match WebsocketSynthesizer.runLoop items [] [] with
    | .ok (buffer, meta) => ({ s with audio_metadata := some meta }, .ok buffer)
    | .error e => (s, .error e)

/-- `AspeakError` (its module `errors.rs` is not part of the available
sources).  Modelled from the spec error taxonomy and the variants used at
the embedded call sites: `ConnectionCloseError{code, reason}` and
`WebSocketError` in `Synthesizer::synthesize_ssml`, `ArgumentError` in
`AudioFormat::from_container_and_quality`, plus the variant a codec parse
failure converts into. -/
inductive AspeakError where
  | connectionCloseError (code : String) (reason : String)
  | webSocketError
  | invalidMessageError
  | argumentError (msg : String)
deriving Repr, DecidableEq

/-- The error built by the `WebSocketMessage::Close(frame)` arm of
`Synthesizer::synthesize_ssml` (src/synthesizer.rs lines 159-170). -/
def closeFrameAspeakError (frame : Option CloseFrame) : AspeakError :=
  match frame with
  | none =>
      .connectionCloseError ("Unknown")
        ("The server closed the connection without a reason")
  | some fr => .connectionCloseError (toString fr.code) fr.reason

/-- The receive loop of `Synthesizer::synthesize_ssml` (src/synthesizer.rs
lines 148-173).  Unlike the websocket.rs loop it has no `AudioMetadata`
arm: metadata messages fall into the catch-all `msg => warn!` arm and are
ignored; only the audio buffer is accumulated and returned. -/
def Synthesizer.runLoop :
    List InboundItem → List Nat → Except AspeakError (List Nat)
  | [], buffer => .ok buffer
  | .transportError :: _, _ => .error .webSocketError
  | .parseError :: _, _ => .error .invalidMessageError
  | .msg .turnStart :: rest, buffer => Synthesizer.runLoop rest buffer
  | .msg (.response _) :: rest, buffer => Synthesizer.runLoop rest buffer
  | .msg (.audio d) :: rest, buffer => Synthesizer.runLoop rest (buffer ++ d)
  | .msg (.audioMetadata _) :: rest, buffer => Synthesizer.runLoop rest buffer
  | .msg .turnEnd :: _, buffer => .ok buffer
  | .msg (.close f) :: _, _ => .error (closeFrameAspeakError f)
  | .msg .unrecognized :: rest, buffer => Synthesizer.runLoop rest buffer

/-- An inbound item is non-terminal when the receive loop handles it and
moves on to the next item: a parsed `TurnStart`, `Response`, `Audio`,
`AudioMetadata` or `Unrecognized` message.  `TurnEnd`, `Close` and the two
error items all end the loop. -/
def nonTerminalItem : InboundItem → Bool
  | .msg .turnStart => true
  | .msg (.response _) => true
  | .msg (.audio _) => true
  | .msg (.audioMetadata _) => true
  | .msg .unrecognized => true
  | .msg .turnEnd => false
  | .msg (.close _) => false
  | .transportError => false
  | .parseError => false

/-- Whether the inbound sequence makes the receive loop fail: some
transport error, parse error or `Close` message occurs strictly before any
`TurnEnd` (and before the end of the stream, which terminates the loop
normally). -/
def failsBeforeTurnEnd : List InboundItem → Bool
  | [] => false
  | .transportError :: _ => true
  | .parseError :: _ => true
  | .msg .turnEnd :: _ => false
  | .msg (.close _) :: _ => true
  | .msg _ :: rest => failsBeforeTurnEnd rest

/-- The error the websocket.rs receive loop produces for the first failing
item of the sequence, when there is one before the terminating `TurnEnd`. -/
def firstError : List InboundItem → Option WebsocketSynthesizerErrorKind
  | [] => none
  | .transportError :: _ => some .websocket
  | .parseError :: _ => some .invalidMessage
  | .msg .turnEnd :: _ => none
  | .msg (.close f) :: _ => some (closeFrameError f)
  | .msg _ :: rest => firstError rest

/-- The audio payload bytes of the inbound sequence up to its first
terminal item, concatenated in arrival order. -/
def collectAudio : List InboundItem → List Nat
  | [] => []
  | .transportError :: _ => []
  | .parseError :: _ => []
  | .msg .turnEnd :: _ => []
  | .msg (.close _) :: _ => []
  | .msg (.audio d) :: rest => d ++ collectAudio rest
  | .msg _ :: rest => collectAudio rest

/-- The `AudioMetadata` bodies of the inbound sequence up to its first
terminal item, in arrival order. -/
def collectMeta : List InboundItem → List String
  | [] => []
  | .transportError :: _ => []
  | .parseError :: _ => []
  | .msg .turnEnd :: _ => []
  | .msg (.close _) :: _ => []
  | .msg (.audioMetadata b) :: rest => b :: collectMeta rest
  | .msg _ :: rest => collectMeta rest

theorem ws_runLoop_ok_of_not_fails (items : List InboundItem) :
    ∀ buffer meta, failsBeforeTurnEnd items = false →
      WebsocketSynthesizer.runLoop items buffer meta =
        .ok (buffer ++ collectAudio items, meta ++ collectMeta items) := by
  induction items with
  | nil =>
      intro buffer meta _
      simp [WebsocketSynthesizer.runLoop, collectAudio, collectMeta]
  | cons x rest ih =>
      intro buffer meta h
      cases x with
      | transportError => simp [failsBeforeTurnEnd] at h
      | parseError => simp [failsBeforeTurnEnd] at h
      | msg m =>
          cases m with
          | turnStart =>
              simpa [WebsocketSynthesizer.runLoop, collectAudio, collectMeta]
                using ih buffer meta (by simpa [failsBeforeTurnEnd] using h)
          | response b =>
              simpa [WebsocketSynthesizer.runLoop, collectAudio, collectMeta]
                using ih buffer meta (by simpa [failsBeforeTurnEnd] using h)
          | audio d =>
              simpa [WebsocketSynthesizer.runLoop, collectAudio, collectMeta]
                using ih (buffer ++ d) meta (by simpa [failsBeforeTurnEnd] using h)
          | audioMetadata b =>
              simpa [WebsocketSynthesizer.runLoop, collectAudio, collectMeta]
                using ih buffer (meta ++ [b]) (by simpa [failsBeforeTurnEnd] using h)
          | turnEnd =>
              simp [WebsocketSynthesizer.runLoop, collectAudio, collectMeta]
          | close f => simp [failsBeforeTurnEnd] at h
          | unrecognized =>
              simpa [WebsocketSynthesizer.runLoop, collectAudio, collectMeta]
                using ih buffer meta (by simpa [failsBeforeTurnEnd] using h)

theorem ws_runLoop_error_of_firstError (items : List InboundItem) :
    ∀ buffer meta e, firstError items = some e →
      WebsocketSynthesizer.runLoop items buffer meta = .error e := by
  induction items with
  | nil => intro buffer meta e h; simp [firstError] at h
  | cons x rest ih =>
      intro buffer meta e h
      cases x with
      | transportError =>
          simp [firstError] at h
          simp [WebsocketSynthesizer.runLoop, h]
      | parseError =>
          simp [firstError] at h
          simp [WebsocketSynthesizer.runLoop, h]
      | msg m =>
          cases m with
          | turnStart =>
              exact (ih buffer meta e (by simpa [firstError] using h)).trans rfl
          | response b =>
              exact (ih buffer meta e (by simpa [firstError] using h)).trans rfl
          | audio d =>
              exact (ih (buffer ++ d) meta e (by simpa [firstError] using h)).trans rfl
          | audioMetadata b =>
              exact (ih buffer (meta ++ [b]) e (by simpa [firstError] using h)).trans rfl
          | turnEnd => simp [firstError] at h
          | close f =>
              simp [firstError] at h
              simp [WebsocketSynthesizer.runLoop, h]
          | unrecognized =>
              exact (ih buffer meta e (by simpa [firstError] using h)).trans rfl

theorem firstError_isSome_of_fails (items : List InboundItem) :
    failsBeforeTurnEnd items = true → (firstError items).isSome := by
  induction items with
  | nil => intro h; simp [failsBeforeTurnEnd] at h
  | cons x rest ih =>
      intro h
      cases x with
      | transportError => simp [firstError]
      | parseError => simp [firstError]
      | msg m =>
          cases m with
          | turnStart => exact ih (by simpa [failsBeforeTurnEnd] using h)
          | response b => exact ih (by simpa [failsBeforeTurnEnd] using h)
          | audio d => exact ih (by simpa [failsBeforeTurnEnd] using h)
          | audioMetadata b => exact ih (by simpa [failsBeforeTurnEnd] using h)
          | turnEnd => simp [failsBeforeTurnEnd] at h
          | close f => simp [firstError]
          | unrecognized => exact ih (by simpa [failsBeforeTurnEnd] using h)

/-- C1: for a synthesize call whose inbound message sequence is
`[TurnStart, Audio(b"A"), AudioMetadata("m1"), Audio(b"B"), TurnEnd]`, the
call returns the audio buffer `b"AB"` (bytes `[65, 66]`) and the
accumulated metadata sequence equals `["m1"]` (stored into
`audio_metadata` by the websocket.rs synthesizer; the synthesizer.rs
variant returns the same buffer). -/
theorem c1_example_sequence :
    (WebsocketSynthesizer.synthesize_ssml ⟨none⟩ true true
        [.msg .turnStart, .msg (.audio [65]), .msg (.audioMetadata ("m1")),
          .msg (.audio [66]), .msg .turnEnd] =
      (⟨some [("m1")]⟩, .ok [65, 66])) ∧
    (Synthesizer.runLoop
        [.msg .turnStart, .msg (.audio [65]), .msg (.audioMetadata ("m1")),
          .msg (.audio [66]), .msg .turnEnd] [] = .ok [65, 66]) :=
  ⟨rfl, rfl⟩

/-- C2: receiving a `Close` message (after any run of non-terminal
messages) fails the call with a connection-closed error whose code is the
close frame's code stringified and whose reason is the frame's reason;
when the close frame is absent the code is the literal `"Unknown"` and the
reason is the default explanatory string.  Both receive loops behave this
way. -/
theorem c2_close_message_fails_call :
    (∀ (pre : List InboundItem) (f : Option CloseFrame) rest buffer meta,
        (∀ x ∈ pre, nonTerminalItem x = true) →
        WebsocketSynthesizer.runLoop (pre ++ .msg (.close f) :: rest) buffer meta =
          .error (closeFrameError f)) ∧
    (∀ (pre : List InboundItem) (f : Option CloseFrame) rest buffer,
        (∀ x ∈ pre, nonTerminalItem x = true) →
        Synthesizer.runLoop (pre ++ .msg (.close f) :: rest) buffer =
          .error (closeFrameAspeakError f)) ∧
    (∀ c r, closeFrameError (some ⟨c, r⟩) =
        .websocketConnectionClosed (toString c) r) ∧
    (closeFrameError none =
        .websocketConnectionClosed ("Unknown")
          ("The server closed the connection without a reason")) ∧
    (∀ c r, closeFrameAspeakError (some ⟨c, r⟩) =
        .connectionCloseError (toString c) r) ∧
    (closeFrameAspeakError none =
        .connectionCloseError ("Unknown")
          ("The server closed the connection without a reason")) := by
  refine ⟨?_, ?_, fun c r => rfl, rfl, fun c r => rfl, rfl⟩
  · intro pre
    induction pre with
    | nil => intro f rest buffer meta _; rfl
    | cons x pre ih =>
        intro f rest buffer meta h
        have hx := h x (by simp)
        have hrest : ∀ y ∈ pre, nonTerminalItem y = true := fun y hy =>
          h y (by simp [hy])
        cases x with
        | transportError => simp [nonTerminalItem] at hx
        | parseError => simp [nonTerminalItem] at hx
        | msg m =>
            cases m with
            | turnStart => exact ih f rest buffer meta hrest
            | response b => exact ih f rest buffer meta hrest
            | audio d => exact ih f rest (buffer ++ d) meta hrest
            | audioMetadata b => exact ih f rest buffer (meta ++ [b]) hrest
            | turnEnd => simp [nonTerminalItem] at hx
            | close g => simp [nonTerminalItem] at hx
            | unrecognized => exact ih f rest buffer meta hrest
  · intro pre
    induction pre with
    | nil => intro f rest buffer _; rfl
    | cons x pre ih =>
        intro f rest buffer h
        have hx := h x (by simp)
        have hrest : ∀ y ∈ pre, nonTerminalItem y = true := fun y hy =>
          h y (by simp [hy])
        cases x with
        | transportError => simp [nonTerminalItem] at hx
        | parseError => simp [nonTerminalItem] at hx
        | msg m =>
            cases m with
            | turnStart => exact ih f rest buffer hrest
            | response b => exact ih f rest buffer hrest
            | audio d => exact ih f rest (buffer ++ d) hrest
            | audioMetadata b => exact ih f rest buffer hrest
            | turnEnd => simp [nonTerminalItem] at hx
            | close g => simp [nonTerminalItem] at hx
            | unrecognized => exact ih f rest buffer hrest

/-- Witness for C2 at a concrete call: a close frame with code 1006 and an
empty reason, after a `TurnStart`, fails the call with
`ConnectionClosed{code := "1006", reason := ""}`. -/
theorem c2_close_message_fails_call_witness :
    WebsocketSynthesizer.runLoop
        [.msg .turnStart, .msg (.close (some ⟨1006, ""⟩))] [] [] =
      .error (.websocketConnectionClosed ("1006") ("")) := by
  have h := c2_close_message_fails_call.1 [.msg .turnStart]
    (some ⟨1006, ""⟩) [] [] []
    (by intro x hx; simp at hx; subst hx; rfl)
  exact h.trans rfl

/-- C3: every failing synthesize call (failed outbound send, `Close`
message, transport read error or codec parse error before `TurnEnd`)
returns only the error: its result is never `.ok` with a partial buffer. -/
theorem c3_failure_returns_only_error :
    (∀ (s : WebsocketSynthesizer) sendSsmlOk items,
        (WebsocketSynthesizer.synthesize_ssml s false sendSsmlOk items).2 =
          .error .websocket) ∧
    (∀ (s : WebsocketSynthesizer) items,
        (WebsocketSynthesizer.synthesize_ssml s true false items).2 =
          .error .websocket) ∧
    (∀ (s : WebsocketSynthesizer) items, failsBeforeTurnEnd items = true →
        ∃ e, firstError items = some e ∧
          (WebsocketSynthesizer.synthesize_ssml s true true items).2 = .error e ∧
          ∀ buffer,
            (WebsocketSynthesizer.synthesize_ssml s true true items).2 ≠
              .ok buffer) := by
  refine ⟨fun s ssk items => rfl, fun s items => rfl, fun s items hfail => ?_⟩
  obtain ⟨e, he⟩ := Option.isSome_iff_exists.mp
    (firstError_isSome_of_fails items hfail)
  have herr := ws_runLoop_error_of_firstError items [] [] e he
  refine ⟨e, he, ?_, ?_⟩
  · simp [WebsocketSynthesizer.synthesize_ssml, herr]
  · intro buffer
    simp [WebsocketSynthesizer.synthesize_ssml, herr]

/-- Witness for C3 at a concrete call: an audio chunk followed by a codec
parse error; the 1-byte partial buffer is not returned. -/
theorem c3_failure_returns_only_error_witness :
    (WebsocketSynthesizer.synthesize_ssml ⟨none⟩ true true
        [.msg (.audio [65]), .parseError]).2 ≠ .ok [65] := by
  obtain ⟨e, he, herr, hne⟩ := c3_failure_returns_only_error.2.2 ⟨none⟩
    [.msg (.audio [65]), .parseError] (by rfl)
  exact hne [65]

/-- C7: in the websocket.rs receive loop, the buffer is extended exactly by
an `Audio` message's payload and the metadata sequence exactly by an
`AudioMetadata` message's body; `TurnStart`, `Response` and `Unrecognized`
mutate neither, and the terminal items (`TurnEnd`, `Close`) return without
mutating.  Consequently a non-failing run returns the audio payloads and
metadata bodies concatenated in arrival order. -/
theorem c7_mutation_only_by_audio_and_metadata :
    (∀ rest buffer meta d,
        WebsocketSynthesizer.runLoop (.msg (.audio d) :: rest) buffer meta =
          WebsocketSynthesizer.runLoop rest (buffer ++ d) meta) ∧
    (∀ rest buffer meta b,
        WebsocketSynthesizer.runLoop (.msg (.audioMetadata b) :: rest) buffer meta =
          WebsocketSynthesizer.runLoop rest buffer (meta ++ [b])) ∧
    (∀ rest buffer meta,
        WebsocketSynthesizer.runLoop (.msg .turnStart :: rest) buffer meta =
          WebsocketSynthesizer.runLoop rest buffer meta) ∧
    (∀ rest buffer meta b,
        WebsocketSynthesizer.runLoop (.msg (.response b) :: rest) buffer meta =
          WebsocketSynthesizer.runLoop rest buffer meta) ∧
    (∀ rest buffer meta,
        WebsocketSynthesizer.runLoop (.msg .unrecognized :: rest) buffer meta =
          WebsocketSynthesizer.runLoop rest buffer meta) ∧
    (∀ rest buffer meta,
        WebsocketSynthesizer.runLoop (.msg .turnEnd :: rest) buffer meta =
          .ok (buffer, meta)) ∧
    (∀ rest buffer meta f,
        WebsocketSynthesizer.runLoop (.msg (.close f) :: rest) buffer meta =
          .error (closeFrameError f)) ∧
    (∀ items buffer meta, failsBeforeTurnEnd items = false →
        WebsocketSynthesizer.runLoop items buffer meta =
          .ok (buffer ++ collectAudio items, meta ++ collectMeta items)) :=
  ⟨fun _ _ _ _ => rfl, fun _ _ _ _ => rfl, fun _ _ _ => rfl, fun _ _ _ _ => rfl,
    fun _ _ _ => rfl, fun _ _ _ => rfl, fun _ _ _ _ => rfl,
    fun items buffer meta h => ws_runLoop_ok_of_not_fails items buffer meta h⟩

/-- Witness for C7 at a concrete non-failing run: two audio chunks around a
metadata message accumulate in arrival order. -/
theorem c7_mutation_only_by_audio_and_metadata_witness :
    WebsocketSynthesizer.runLoop
        [.msg (.audio [1, 2]), .msg (.audioMetadata ("m")), .msg (.audio [3]),
          .msg .turnEnd] [] [] =
      .ok ([1, 2, 3], [("m")]) := by
  have h := c7_mutation_only_by_audio_and_metadata.2.2.2.2.2.2.2
    [.msg (.audio [1, 2]), .msg (.audioMetadata ("m")), .msg (.audio [3]),
      .msg .turnEnd] [] [] (by rfl)
  exact h.trans rfl

/-- C8: an `Unrecognized` message at any position in the inbound sequence
never fails the call and never changes the buffer or metadata: both
receive loops continue as if the message were absent. -/
theorem c8_unrecognized_ignored :
    (∀ (pre post : List InboundItem) buffer meta,
        WebsocketSynthesizer.runLoop (pre ++ .msg .unrecognized :: post) buffer meta =
          WebsocketSynthesizer.runLoop (pre ++ post) buffer meta) ∧
    (∀ (pre post : List InboundItem) buffer,
        Synthesizer.runLoop (pre ++ .msg .unrecognized :: post) buffer =
          Synthesizer.runLoop (pre ++ post) buffer) := by
  constructor
  · intro pre
    induction pre with
    | nil => intro post buffer meta; rfl
    | cons x pre ih =>
        intro post buffer meta
        cases x with
        | transportError => rfl
        | parseError => rfl
        | msg m =>
            cases m with
            | turnStart => exact ih post buffer meta
            | response b => exact ih post buffer meta
            | audio d => exact ih post (buffer ++ d) meta
            | audioMetadata b => exact ih post buffer (meta ++ [b])
            | turnEnd => rfl
            | close f => rfl
            | unrecognized => exact ih post buffer meta
  · intro pre
    induction pre with
    | nil => intro post buffer; rfl
    | cons x pre ih =>
        intro post buffer
        cases x with
        | transportError => rfl
        | parseError => rfl
        | msg m =>
            cases m with
            | turnStart => exact ih post buffer
            | response b => exact ih post buffer
            | audio d => exact ih post (buffer ++ d)
            | audioMetadata b => exact ih post buffer
            | turnEnd => rfl
            | close f => rfl
            | unrecognized => exact ih post buffer

/-- C9: the receive loops do not enforce turn ordering at the start of a
turn: the inbound sequence `[Audio(b"A"), TurnEnd]` with no `TurnStart`
still returns buffer `b"A"` (byte `[65]`), in both loops. -/
theorem c9_no_turn_start_required :
    (WebsocketSynthesizer.synthesize_ssml ⟨none⟩ true true
        [.msg (.audio [65]), .msg .turnEnd] = (⟨some []⟩, .ok [65])) ∧
    (Synthesizer.runLoop [.msg (.audio [65]), .msg .turnEnd] [] = .ok [65]) :=
  ⟨rfl, rfl⟩

/-- C10: when `synthesize_ssml` fails, the synthesizer's `audio_metadata`
field (indeed the whole synthesizer state) is exactly as before the call;
when it returns `.ok`, the field is overwritten with the metadata
collected from the inbound sequence. -/
theorem c10_audio_metadata_untouched_on_failure :
    ∀ (s : WebsocketSynthesizer) sendContextOk sendSsmlOk items,
      (∀ e, (WebsocketSynthesizer.synthesize_ssml s sendContextOk sendSsmlOk
            items).2 = .error e →
          (WebsocketSynthesizer.synthesize_ssml s sendContextOk sendSsmlOk
            items).1 = s) ∧
      (∀ buffer, (WebsocketSynthesizer.synthesize_ssml s sendContextOk sendSsmlOk
            items).2 = .ok buffer →
          (WebsocketSynthesizer.synthesize_ssml s sendContextOk sendSsmlOk
            items).1.audio_metadata = some (collectMeta items)) := by
  intro s sendContextOk sendSsmlOk items
  cases sendContextOk with
  | false =>
      exact ⟨fun e _ => rfl,
        fun buffer hb => by simp [WebsocketSynthesizer.synthesize_ssml] at hb⟩
  | true =>
      cases sendSsmlOk with
      | false =>
          exact ⟨fun e _ => rfl,
            fun buffer hb => by simp [WebsocketSynthesizer.synthesize_ssml] at hb⟩
      | true =>
          cases hfe : failsBeforeTurnEnd items with
          | false =>
              have hok := ws_runLoop_ok_of_not_fails items [] [] hfe
              constructor
              · intro e he
                simp [WebsocketSynthesizer.synthesize_ssml, hok] at he
              · intro buffer _
                simp [WebsocketSynthesizer.synthesize_ssml, hok]
          | true =>
              obtain ⟨e0, he0⟩ := Option.isSome_iff_exists.mp
                (firstError_isSome_of_fails items hfe)
              have herr := ws_runLoop_error_of_firstError items [] [] e0 he0
              constructor
              · intro e _
                simp [WebsocketSynthesizer.synthesize_ssml, herr]
              · intro buffer hb
                simp [WebsocketSynthesizer.synthesize_ssml, herr] at hb

/-- Witness for C10 at a concrete call: a failing run (audio then a close
frame) leaves a previously stored `audio_metadata` value in place. -/
theorem c10_audio_metadata_untouched_on_failure_witness :
    (WebsocketSynthesizer.synthesize_ssml ⟨some [("old")]⟩ true true
        [.msg (.audio [65]), .msg (.close none)]).1 = ⟨some [("old")]⟩ :=
  (c10_audio_metadata_untouched_on_failure ⟨some [("old")]⟩ true true
      [.msg (.audio [65]), .msg (.close none)]).1 (closeFrameError none) rfl

/-- `AudioFormat` from src/types.rs (lines 48-160). -/
inductive AudioFormat where
  | AmrWb16000Hz
  | Audio16Khz128KBitRateMonoMp3
  | Audio16Khz16Bit32KbpsMonoOpus
  | Audio16Khz32KBitRateMonoMp3
  | Audio16Khz64KBitRateMonoMp3
  | Audio24Khz160KBitRateMonoMp3
  | Audio24Khz16Bit24KbpsMonoOpus
  | Audio24Khz16Bit48KbpsMonoOpus
  | Audio24Khz48KBitRateMonoMp3
  | Audio24Khz96KBitRateMonoMp3
  | Audio48Khz192KBitRateMonoMp3
  | Audio48Khz96KBitRateMonoMp3
  | Ogg16Khz16BitMonoOpus
  | Ogg24Khz16BitMonoOpus
  | Ogg48Khz16BitMonoOpus
  | Raw16Khz16BitMonoPcm
  | Raw16Khz16BitMonoTrueSilk
  | Raw22050Hz16BitMonoPcm
  | Raw24Khz16BitMonoPcm
  | Raw24Khz16BitMonoTrueSilk
  | Raw44100Hz16BitMonoPcm
  | Raw48Khz16BitMonoPcm
  | Raw8Khz16BitMonoPcm
  | Raw8Khz8BitMonoALaw
  | Raw8Khz8BitMonoMULaw
  | Riff16Khz16BitMonoPcm
  | Riff22050Hz16BitMonoPcm
  | Riff24Khz16BitMonoPcm
  | Riff44100Hz16BitMonoPcm
  | Riff48Khz16BitMonoPcm
  | Riff8Khz16BitMonoPcm
  | Riff8Khz8BitMonoALaw
  | Riff8Khz8BitMonoMULaw
  | Webm16Khz16BitMonoOpus
  | Webm24Khz16Bit24KbpsMonoOpus
  | Webm24Khz16BitMonoOpus
deriving Repr, DecidableEq

/-- The strum `to_string` serialization of `AudioFormat` (src/types.rs
attribute per variant), used by `Into::<&str>::into(self.audio_format)`.
The `riff-8khz-8bit-mono-alow` spelling reproduces the source. -/
def audioFormatStr : AudioFormat → String
  | .AmrWb16000Hz => "amr-wb-16000hz"
  | .Audio16Khz128KBitRateMonoMp3 => "audio-16khz-128kbitrate-mono-mp3"
  | .Audio16Khz16Bit32KbpsMonoOpus => "audio-16khz-16bit-32kbps-mono-opus"
  | .Audio16Khz32KBitRateMonoMp3 => "audio-16khz-32kbitrate-mono-mp3"
  | .Audio16Khz64KBitRateMonoMp3 => "audio-16khz-64kbitrate-mono-mp3"
  | .Audio24Khz160KBitRateMonoMp3 => "audio-24khz-160kbitrate-mono-mp3"
  | .Audio24Khz16Bit24KbpsMonoOpus => "audio-24khz-16bit-24kbps-mono-opus"
  | .Audio24Khz16Bit48KbpsMonoOpus => "audio-24khz-16bit-48kbps-mono-opus"
  | .Audio24Khz48KBitRateMonoMp3 => "audio-24khz-48kbitrate-mono-mp3"
  | .Audio24Khz96KBitRateMonoMp3 => "audio-24khz-96kbitrate-mono-mp3"
  | .Audio48Khz192KBitRateMonoMp3 => "audio-48khz-192kbitrate-mono-mp3"
  | .Audio48Khz96KBitRateMonoMp3 => "audio-48khz-96kbitrate-mono-mp3"
  | .Ogg16Khz16BitMonoOpus => "ogg-16khz-16bit-mono-opus"
  | .Ogg24Khz16BitMonoOpus => "ogg-24khz-16bit-mono-opus"
  | .Ogg48Khz16BitMonoOpus => "ogg-48khz-16bit-mono-opus"
  | .Raw16Khz16BitMonoPcm => "raw-16khz-16bit-mono-pcm"
  | .Raw16Khz16BitMonoTrueSilk => "raw-16khz-16bit-mono-truesilk"
  | .Raw22050Hz16BitMonoPcm => "raw-22050hz-16bit-mono-pcm"
  | .Raw24Khz16BitMonoPcm => "raw-24khz-16bit-mono-pcm"
  | .Raw24Khz16BitMonoTrueSilk => "raw-24khz-16bit-mono-truesilk"
  | .Raw44100Hz16BitMonoPcm => "raw-44100hz-16bit-mono-pcm"
  | .Raw48Khz16BitMonoPcm => "raw-48khz-16bit-mono-pcm"
  | .Raw8Khz16BitMonoPcm => "raw-8khz-16bit-mono-pcm"
  | .Raw8Khz8BitMonoALaw => "raw-8khz-8bit-mono-alaw"
  | .Raw8Khz8BitMonoMULaw => "raw-8khz-8bit-mono-mulaw"
  | .Riff16Khz16BitMonoPcm => "riff-16khz-16bit-mono-pcm"
  | .Riff22050Hz16BitMonoPcm => "riff-22050hz-16bit-mono-pcm"
  | .Riff24Khz16BitMonoPcm => "riff-24khz-16bit-mono-pcm"
  | .Riff44100Hz16BitMonoPcm => "riff-44100hz-16bit-mono-pcm"
  | .Riff48Khz16BitMonoPcm => "riff-48khz-16bit-mono-pcm"
  | .Riff8Khz16BitMonoPcm => "riff-8khz-16bit-mono-pcm"
  | .Riff8Khz8BitMonoALaw => "riff-8khz-8bit-mono-alow"
  | .Riff8Khz8BitMonoMULaw => "riff-8khz-8bit-mono-mulaw"
  | .Webm16Khz16BitMonoOpus => "webm-16khz-16bit-mono-opus"
  | .Webm24Khz16Bit24KbpsMonoOpus => "webm-24khz-16bit-24kbps-mono-opus"
  | .Webm24Khz16BitMonoOpus => "webm-24khz-16bit-mono-opus"

/-- `CLIENT_INFO_PAYLOAD` from src/synthesizer.rs line 32 (the static
client-context JSON sent in the `speech.config` message). -/
def CLIENT_INFO_PAYLOAD : String :=
  "\x7b\"context\":\x7b\"system\":\x7b\"version\":\"1.25.0\",\"name\":\"SpeechSDK\",\"build\":\"Windows-x64\"\x7d,\"os\":\x7b\"platform\":\"Windows\",\"name\":\"Client\",\"version\":\"10\"\x7d\x7d\x7d"

/-- The `speech.config` text frame sent by `SynthesizerConfig::connect`
(src/synthesizer.rs lines 107-109), with the `format!` placeholders as
arguments.  The format string is transcribed verbatim: there is no `\r\n`
between the `X-Timestamp` value and `Content-Type`. -/
def speechConfigMessage (request_id now : String) : String :=
  "Path: speech.config\r\nX-RequestId: " ++ request_id ++
    "\r\nX-Timestamp: " ++ now ++ "Content-Type: application/json\r\n\r\n" ++
    CLIENT_INFO_PAYLOAD

/-- The `synthesis_context` JSON body built by
`WebsocketSynthesizer::synthesize_ssml` (src/synthesizer/websocket.rs lines
33-36); the synthesizer.rs variant differs only in
`wordBoundaryEnabled:false`. -/
def synthesisContext (audio_format : AudioFormat) : String :=
  "\x7b\"synthesis\":\x7b\"audio\":\x7b\"metadataOptions\":\x7b\"sentenceBoundaryEnabled\":false,\"wordBoundaryEnabled\":true,\"sessionEndEnabled\":false\x7d,\"outputFormat\":\"" ++
    audioFormatStr audio_format ++ "\"\x7d\x7d\x7d"

/-- The `synthesis.context` text frame sent by both synthesize loops
(src/synthesizer/websocket.rs lines 37-40, src/synthesizer.rs lines
138-141).  Transcribed verbatim: there is no `\r\n` between the
`X-Timestamp` value and `Content-Type`. -/
def synthesisContextMessage (request_id now : String)
    (audio_format : AudioFormat) : String :=
  "Path: synthesis.context\r\nX-RequestId: " ++ request_id ++
    "\r\nX-Timestamp: " ++ now ++ "Content-Type: application/json\r\n\r\n" ++
    synthesisContext audio_format

/-- The `ssml` text frame sent by both synthesize loops
(src/synthesizer/websocket.rs lines 42-44, src/synthesizer.rs lines
143-145).  This one does separate `X-Timestamp` and `Content-Type` with
`\r\n`. -/
def ssmlMessage (request_id now ssml : String) : String :=
  "Path: ssml\r\nX-RequestId: " ++ request_id ++ "\r\nX-Timestamp: " ++ now ++
    "\r\nContent-Type: application/ssml+xml\r\n\r\n" ++ ssml

/-- Split a character sequence at the first occurrence of the blank-line
terminator `\r\n\r\n`, returning the header block and the body after it. -/
def splitHeaderBody : List Char → Option (List Char × List Char)
  | '\r' :: '\n' :: '\r' :: '\n' :: rest => some ([], rest)
  | c :: rest => (splitHeaderBody rest).map (fun p => (c :: p.1, p.2))
  | [] => none

/-- Split a character sequence into its `\r\n`-separated lines. -/
def splitCrlfLines : List Char → List (List Char)
  | '\r' :: '\n' :: rest => [] :: splitCrlfLines rest
  | c :: rest =>
      match splitCrlfLines rest with
      | [] => [[c]]
      | l :: ls => (c :: l) :: ls
  | [] => [[]]

/-- The characters before the first `: ` separator of a header line, when
there is one. -/
def keyOfLine : List Char → Option (List Char)
  | ':' :: ' ' :: _ => some []
  | c :: rest => (keyOfLine rest).map (fun k => c :: k)
  | [] => none

/-- A header line of the shape `Key: value` with a nonempty key. -/
def validHeaderLine (l : List Char) : Bool :=
  match keyOfLine l with
  | some (_ :: _) => true
  | _ => false

/-- Whether some line of the header block is a `Content-Type` header. -/
def hasContentTypeLine (lines : List (List Char)) : Bool :=
  lines.any (fun l => (("Content-Type: ").data).isPrefixOf l)

/-- The outbound message grammar of the spec: a block of `Key: value`
header lines, each on its own line, terminated by a blank line and
followed by the body, with a `Content-Type` header line present whenever a
nonempty body follows. -/
def messageWellFormed (m : String) : Bool :=
  match splitHeaderBody m.data with
  | none => false
  | some (hdr, body) =>
      (splitCrlfLines hdr).all validHeaderLine &&
      (body.isEmpty || hasContentTypeLine (splitCrlfLines hdr))

/-- The keys of the header lines of a message, in order. -/
def headerKeys (m : String) : Option (List String) :=
  (splitHeaderBody m.data).map (fun p =>
    ((splitCrlfLines p.1).filterMap keyOfLine).map (fun k => String.mk k))

/-- C4 (refuted on the code): the `ssml` message satisfies the outbound
grammar with header keys `Path`, `X-RequestId`, `X-Timestamp`,
`Content-Type`, but the `synthesis.context` and `speech.config` messages
do not: their format strings lack the `\r\n` between the `X-Timestamp`
value and `Content-Type`, so those messages carry only three header lines
(the third being `X-Timestamp` with `Content-Type: application/json`
pasted into its value) and no `Content-Type` header of their own, even
though a body follows. -/
theorem c4_content_type_not_on_own_line :
    (messageWellFormed (ssmlMessage ("rid") ("ts") ("<speak/>")) = true) ∧
    (headerKeys (ssmlMessage ("rid") ("ts") ("<speak/>")) =
      some [("Path"), ("X-RequestId"), ("X-Timestamp"), ("Content-Type")]) ∧
    (messageWellFormed
        (synthesisContextMessage ("rid") ("ts") .Riff24Khz16BitMonoPcm) =
      false) ∧
    (headerKeys (synthesisContextMessage ("rid") ("ts") .Riff24Khz16BitMonoPcm) =
      some [("Path"), ("X-RequestId"), ("X-Timestamp")]) ∧
    (messageWellFormed (speechConfigMessage ("rid") ("ts")) = false) ∧
    (headerKeys (speechConfigMessage ("rid") ("ts")) =
      some [("Path"), ("X-RequestId"), ("X-Timestamp")]) :=
  ⟨rfl, rfl, rfl, rfl, rfl, rfl⟩

/-- Modelled from the spec: the default trial endpoint constant
(`DEFAULT_ENDPOINT` lives in `constants.rs`, which is not part of the
available sources; the spec only says it is a fixed default endpoint).
The embedded header logic uses it solely through string equality, so its
exact value is immaterial to the verified properties. -/
def DEFAULT_ENDPOINT : String :=
  "wss://eastus.api.speech.microsoft.com/cognitiveservices/websocket/v1"

/-- Modelled from the spec: the fixed trial-service origin header value
(`ORIGIN` lives in `constants.rs`, which is not part of the available
sources).  Used only as an opaque value here. -/
def ORIGIN : String := "https://azure.microsoft.com"

/-- The header assembly of `SynthesizerConfig::generate_client_request`
(src/synthesizer.rs lines 54-69), restricted to the headers the function
itself appends to the upgrade request (the websocket handshake headers
added by `into_client_request` are not modelled, and neither is the
visible-ASCII validation of `HeaderValue::from_str`): first the
`Ocp-Apim-Subscription-Key` header when a key is supplied, then either the
caller's custom headers when non-empty, or else the `Origin` header when
the endpoint is the default trial endpoint. -/
def generate_client_request_headers (key : Option String)
    (headers : List (String × String)) (endpoint : String) :
    List (String × String) :=
  (match key with
   | some k => [(("Ocp-Apim-Subscription-Key"), k)]
   | none => []) ++
  (if headers.isEmpty then
     (if endpoint = DEFAULT_ENDPOINT then [(("Origin"), ORIGIN)] else [])
   else headers)

/-- Counterexample to C5 as stated: with a subscription key supplied AND
non-empty custom headers, the assembled request contains both the
subscription-key header and the custom header, so it is not the case that
exactly one of the three alternatives is used. -/
theorem c5_counterexample_key_and_custom_both_used :
    (generate_client_request_headers (some ("k")) [(("X-My"), ("v"))]
        DEFAULT_ENDPOINT =
      [(("Ocp-Apim-Subscription-Key"), ("k")), (("X-My"), ("v"))]) ∧
    (("Ocp-Apim-Subscription-Key"), ("k")) ∈
      generate_client_request_headers (some ("k")) [(("X-My"), ("v"))]
        DEFAULT_ENDPOINT ∧
    (("X-My"), ("v")) ∈
      generate_client_request_headers (some ("k")) [(("X-My"), ("v"))]
        DEFAULT_ENDPOINT := by
  refine ⟨rfl, ?_, ?_⟩ <;> decide

/-- C5 (amended): the subscription-key header is appended whenever a key
is supplied, independently of the other headers; then exactly one of: the
caller's custom headers when they are non-empty, else the fixed
trial-service origin header when the endpoint is the default trial
endpoint, else nothing more. -/
theorem c5_header_alternatives :
    (∀ (k : String) custom ep, custom ≠ [] →
        generate_client_request_headers (some k) custom ep =
          (("Ocp-Apim-Subscription-Key"), k) :: custom) ∧
    (∀ (k : String),
        generate_client_request_headers (some k) [] DEFAULT_ENDPOINT =
          [(("Ocp-Apim-Subscription-Key"), k), (("Origin"), ORIGIN)]) ∧
    (∀ (k : String) ep, ep ≠ DEFAULT_ENDPOINT →
        generate_client_request_headers (some k) [] ep =
          [(("Ocp-Apim-Subscription-Key"), k)]) ∧
    (∀ custom ep, custom ≠ [] →
        generate_client_request_headers none custom ep = custom) ∧
    (generate_client_request_headers none [] DEFAULT_ENDPOINT =
      [(("Origin"), ORIGIN)]) ∧
    (∀ ep, ep ≠ DEFAULT_ENDPOINT →
        generate_client_request_headers none [] ep = []) := by
  refine ⟨?_, fun k => rfl, ?_, ?_, rfl, ?_⟩
  · intro k custom ep hc
    cases custom with
    | nil => exact absurd rfl hc
    | cons h t => rfl
  · intro k ep hep
    simp [generate_client_request_headers, hep]
  · intro custom ep hc
    cases custom with
    | nil => exact absurd rfl hc
    | cons h t => rfl
  · intro ep hep
    simp [generate_client_request_headers, hep]

/-- Witness for the amended C5 at a concrete call: key supplied and
non-empty custom headers. -/
theorem c5_header_alternatives_witness :
    generate_client_request_headers (some ("k")) [(("X-My"), ("v"))] ("ep") =
      [(("Ocp-Apim-Subscription-Key"), ("k")), (("X-My"), ("v"))] :=
  c5_header_alternatives.1 ("k") [(("X-My"), ("v"))] ("ep") (by simp)

/-- Association-list lookup, embedding the `get` of the static `phf` maps
(first matching key wins; the real maps have distinct keys). -/
def alookup {α β : Type} [DecidableEq α] : List (α × β) → α → Option β
  | [], _ => none
  | (a, b) :: rest, x => if x = a then some b else alookup rest x

/-- `AudioFormat::from_container_and_quality` (src/types.rs lines 163-187).
The static tables `QUALITY_MAP` (container → quality → format) and
`QUALITY_RANGE_MAP` (container → (min, max) quality) live in
`constants.rs`, which is not part of the available sources, so they are
passed as explicit association lists.  Qualities are `i8`; only order
comparisons are performed on them, so they are embedded as `Int`.  The two
`.unwrap()` calls of the source (on the range-map entry and on the map
entry at the closest boundary) are panics, embedded as the `none` result. -/
def from_container_and_quality
    (QUALITY_MAP : List (String × List (Int × AudioFormat)))
    (QUALITY_RANGE_MAP : List (String × (Int × Int)))
    (container : String) (quality : Int) (use_closest : Bool) :
    Option (Except AspeakError AudioFormat) :=
  match alookup QUALITY_MAP container with
  | none => some (.error (.argumentError
      (("No quality map found for container: ") ++ container ++
        (". Please check if the container is correct."))))
  | some map =>
    match alookup map quality with
    | some format => some (.ok format)
    | none =>
      if use_closest then
        match alookup QUALITY_RANGE_MAP container with
        | none => none
        | some (mn, mx) =>
          match alookup map (if quality < mn then mn else mx) with
          | none => none
          | some f => some (.ok f)
      else
        some (.error (.argumentError
          (("Invalid quality found for container: ") ++ container ++
            (" and quality: ") ++ toString quality ++
            (". Please check if the quality is correct."))))

/-- C6: for every (container, quality) pair present in the quality table,
`from_container_and_quality` returns the mapped format; for a quality
outside the container's range with `use_closest` enabled (given the
tables' consistency: the range entry exists, is ordered, and its
boundaries are in the table), it returns the format at the boundary
nearest the requested quality; for an unknown container it returns the
`ArgumentError` (`InvalidRequest`-class) error. -/
theorem c6_from_container_and_quality_lookup :
    (∀ qmap rmap (container : String) (quality : Int) (use_closest : Bool)
        map format,
        alookup qmap container = some map →
        alookup map quality = some format →
        from_container_and_quality qmap rmap container quality use_closest =
          some (.ok format)) ∧
    (∀ qmap rmap (container : String) (quality : Int) map lo hi flo fhi,
        alookup qmap container = some map →
        alookup rmap container = some (lo, hi) →
        lo ≤ hi →
        alookup map quality = none →
        (quality < lo ∨ hi < quality) →
        alookup map lo = some flo →
        alookup map hi = some fhi →
        from_container_and_quality qmap rmap container quality true =
          some (.ok (if (quality - lo).natAbs ≤ (quality - hi).natAbs
            then flo else fhi))) ∧
    (∀ qmap rmap (container : String) (quality : Int) (use_closest : Bool),
        alookup qmap container = none →
        from_container_and_quality qmap rmap container quality use_closest =
          some (.error (.argumentError
            (("No quality map found for container: ") ++ container ++
              (". Please check if the container is correct."))))) := by
  refine ⟨?_, ?_, ?_⟩
  · intro qmap rmap container quality use_closest map format h1 h2
    simp [from_container_and_quality, h1, h2]
  · intro qmap rmap container quality map lo hi flo fhi hmap hrange hle hq
      hout hlo hhi
    rcases Decidable.em (quality < lo) with hql | hql
    · have hcond : (quality - lo).natAbs ≤ (quality - hi).natAbs := by omega
      simp [from_container_and_quality, hmap, hq, hrange, hql, hlo, hcond]
    · have hhiq : hi < quality := by
        rcases hout with h | h
        · exact absurd h hql
        · exact h
      rcases eq_or_lt_of_le hle with heq | hlt
      · subst heq
        rw [hlo] at hhi
        have hf : flo = fhi := Option.some.inj hhi
        subst hf
        simp [from_container_and_quality, hmap, hq, hrange, hql, hlo]
      · have hcond : ¬ ((quality - lo).natAbs ≤ (quality - hi).natAbs) := by
          omega
        simp [from_container_and_quality, hmap, hq, hrange, hql, hhi, hcond]
  · intro qmap rmap container quality use_closest h
    simp [from_container_and_quality, h]

/-- Witness for C6 at a concrete table: an mp3-style container with
qualities 0 and 1; requested quality 5 is above the range, so with
`use_closest` the format at the upper boundary is returned. -/
theorem c6_from_container_and_quality_lookup_witness :
    from_container_and_quality
        [(("mp3"), [((0 : Int), AudioFormat.Audio24Khz48KBitRateMonoMp3),
          ((1 : Int), AudioFormat.Audio24Khz96KBitRateMonoMp3)])]
        [(("mp3"), ((0 : Int), (1 : Int)))] ("mp3") 5 true =
      some (.ok AudioFormat.Audio24Khz96KBitRateMonoMp3) := by
  have h := c6_from_container_and_quality_lookup.2.1
    [(("mp3"), [((0 : Int), AudioFormat.Audio24Khz48KBitRateMonoMp3),
      ((1 : Int), AudioFormat.Audio24Khz96KBitRateMonoMp3)])]
    [(("mp3"), ((0 : Int), (1 : Int)))] ("mp3") 5
    [((0 : Int), AudioFormat.Audio24Khz48KBitRateMonoMp3),
      ((1 : Int), AudioFormat.Audio24Khz96KBitRateMonoMp3)]
    0 1 AudioFormat.Audio24Khz48KBitRateMonoMp3
    AudioFormat.Audio24Khz96KBitRateMonoMp3
    rfl rfl (by decide) rfl (Or.inr (by decide)) rfl rfl
  exact h.trans rfl
